import Mathlib

/-!
Verification of the forum-scraper core (profile extraction pipeline,
post locator, and change-detection polling loop) against its
natural-language specification.

The embedding is shallow: the external collaborators (HTTP fetch and the
xmlpath query engine) are abstracted as data.  A document is represented
by the results of the fixed compiled queries the code runs against it;
a network fetch is represented by the `Except`-valued response the
`GetHTMLRoot` call would produce for the URL the code builds.  Strings
are Lean `String`s (the concrete inputs of interest are ASCII, where
Go's byte-indexed operations and Lean's character-indexed operations
agree).  Go integers are `Int`; Go's `(value, error)` returns are
`value × Option String`; an operation that can panic (an out-of-range
index) returns inside `GoOutcome`, whose `panic` constructor marks the
run-time crash.
-/

/-- Outcome of a Go computation: a normal return, or a run-time panic. -/
inductive GoOutcome (α : Type) where
  | ok : α → GoOutcome α
  | panic : GoOutcome α
  deriving Repr, DecidableEq

/-- Models `strings.TrimPrefix s pre`: drop `pre` when it leads `s`, else `s` unchanged. -/
def goTrimPrefixFn (s pre : String) : String :=
  if pre.toList.isPrefixOf s.toList then String.mk (s.toList.drop pre.toList.length) else s

/-- Models `strings.Trim(s, cutset)`: strip leading and trailing characters of the cutset. -/
def goTrimChars (s : String) (cutset : List Char) : String :=
  String.mk (((s.toList.dropWhile (· ∈ cutset)).reverse.dropWhile (· ∈ cutset)).reverse)

/-- Models `strings.Replace(s, ",", "", -1)`: remove every comma. -/
def goRemoveCommas (s : String) : String :=
  String.mk (s.toList.filter (fun c => c ≠ ','))

/-- Digit run to a natural number, most significant first. -/
def digitsToNat (l : List Char) : Nat :=
  l.foldl (fun acc c => acc * 10 + (c.toNat - 48)) 0

/-- Models `strconv.Atoi`: optional sign followed by a non-empty digit run;
anything else is an error (`none`).  Overflow of the machine int is not
modelled; no claim exercises it. -/
def goAtoi (s : String) : Option Int :=
  let l := s.toList
  match l with
  | [] => none
  | '-' :: rest =>
      if rest ≠ [] ∧ rest.all Char.isDigit then some (-(digitsToNat rest : Int)) else none
  | '+' :: rest =>
      if rest ≠ [] ∧ rest.all Char.isDigit then some ((digitsToNat rest : Int)) else none
  | _ =>
      if l.all Char.isDigit then some ((digitsToNat l : Int)) else none

/-- First index at which `sub` occurs in the remaining haystack, counting from `i`. -/
def findSubAux (sub : List Char) : List Char → Nat → Option Nat
  | [], i => if sub = [] then some i else none
  | c :: t, i => if sub.isPrefixOf (c :: t) then some i else findSubAux sub t (i + 1)

/-- Models `strings.Index(s, sub)`: index of the first occurrence, or -1. -/
def goIndex (s sub : String) : Int :=
  match findSubAux sub.toList s.toList 0 with
  | some i => (i : Int)
  | none => -1

/-- Models the Go slice expression `s[k:]` on a string: the suffix from
index `k` when `0 ≤ k ≤ len(s)`, a run-time panic otherwise. -/
def goSliceFrom (s : String) (k : Int) : GoOutcome String :=
  if 0 ≤ k ∧ k ≤ (s.length : Int) then .ok (String.mk (s.toList.drop k.toNat)) else .panic

/-- Chunks of the haystack between occurrences of '#', current chunk held
in reverse. -/
def splitHashAux : List Char → List Char → List String → List String
  | [], cur, acc => acc ++ [String.mk cur.reverse]
  | c :: rest, cur, acc =>
      if c = '#' then splitHashAux rest [] (acc ++ [String.mk cur.reverse])
      else splitHashAux rest (c :: cur) acc

/-- Models `strings.Split(s, "#")`: the chunks of `s` between occurrences of
the separator; always at least one chunk, empty chunks kept. -/
def goSplitHash (s : String) : List String :=
  splitHashAux s.toList [] []

-- ## Data model (`UserProfile`, `VisitorMessage`)

/-- Source structure `VisitorMessage`: one visitor message on a user page. -/
structure VisitorMessage where
  userName : String
  message : String
  deriving Repr, DecidableEq

/-- Source structure `UserProfile`: data available on a user's profile page.
`errors` is the accumulated field-level error list (error messages). -/
structure UserProfile where
  userName : String
  joinDate : String
  totalPosts : Int
  reputation : Int
  bioText : String
  visitorMessages : List VisitorMessage
  errors : List String
  deriving Repr, DecidableEq

/-- The zero value `var result UserProfile`. -/
def emptyProfile : UserProfile :=
  { userName := "", joinDate := "", totalPosts := 0, reputation := 0,
    bioText := "", visitorMessages := [], errors := [] }

-- ## Change Detector (`newPostAlert`)

/-- One tick's fetch outcome as `newPostAlert` sees it: either
`GetUserProfilePage` returned a non-nil error (in which case the code logs
and falls through with the zero-valued profile, whose `TotalPosts` is 0),
or it succeeded with the observed `TotalPosts`. -/
inductive FetchResult where
  | failure : FetchResult
  | success : Int → FetchResult
  deriving Repr, DecidableEq

/-- The `profile.TotalPosts` value the loop body reads on a tick: the
observed count on success, the zero value 0 on a failed fetch. -/
def observedTotalPosts : FetchResult → Int
  | .failure => 0
  | .success n => n

/-- One iteration of the `newPostAlert` ticker loop body, acting on
`lastPostCount` (initialised to the sentinel -1).  Returns the new
`lastPostCount` and the number of times the callback `fn` was invoked
during the tick.  Faithful to the source: a fetch error is only logged,
the body then proceeds with the zero-valued profile. -/
def newPostAlertTick (lastPostCount : Int) (r : FetchResult) : Int × Nat :=
  let totalPosts := observedTotalPosts r
  if lastPostCount = -1 then
    (totalPosts, 0)
  else if lastPostCount < totalPosts then
    (totalPosts, 1)
  else
    (lastPostCount, 0)

/-- Value of `lastPostCount` after a sequence of ticks. -/
def runTicks (s : Int) : List FetchResult → Int
  | [] => s
  | r :: rs => runTicks (newPostAlertTick s r).1 rs

-- ## Documents as fixed-query results

/-- One node of the `//*[@id="message_list"]/*` iteration, carrying the
results of the two scoped sub-queries the loop body runs against it:
`userQ` for `.//div[2]/div[1]/div/a` and `textQ` for `.//div[2]/div[2]`. -/
structure MessageBlock where
  userQ : Option String
  textQ : Option String
  deriving Repr, DecidableEq

/-- A profile page as the results of the fixed queries run against it:
`userNameQ` for `//*[@id="username_box"]/h1`, `joinDateQ` for the
Join-Date stats entry, `totalPostsQ` for the Total-Posts stats entry,
`bioQ` for the about-me entry, and `messageBlocks` for the iteration
`//*[@id="message_list"]/*` (whose `Exists` check is `messageBlocks ≠ []`). -/
structure ProfileDoc where
  userNameQ : Option String
  joinDateQ : Option String
  totalPostsQ : Option String
  bioQ : Option String
  messageBlocks : List MessageBlock
  deriving Repr, DecidableEq

/-- The `search.php?do=finduser` listing page as seen by `getReputation`:
the result of the first-post anchor query `//td[@class="alt1"]/.../a/@href`. -/
structure ListingDoc where
  firstHrefQ : Option String
  deriving Repr, DecidableEq

/-- The referenced thread page as seen by `getReputation`: the result of
the reputation query, parameterized by the fragment identifier spliced
into `//table[@id="%s"]/...[contains(text(),'Reputation: ')]`. -/
structure PostDoc where
  reputationQ : String → Option String

/-- The two `GetHTMLRoot` responses `getReputation` can trigger. -/
structure RepWorld where
  listingFetch : Except String ListingDoc
  postFetch : Except String PostDoc

/-- All `GetHTMLRoot` responses a `GetUserProfilePage` call can trigger:
the profile page itself plus the reputation sub-pipeline's two fetches. -/
structure FetchWorld where
  profileFetch : Except String ProfileDoc
  repWorld : RepWorld

-- ## Field extractors

/-- Source function `getUserName`: the anchor query's result trimmed of
newline and space characters; query miss is the fatal identity error. -/
def getUserName (root : ProfileDoc) : String × Option String :=
  match root.userNameQ with
  | none => ("", some "user name xmlpath did not return a result")
  | some result => (goTrimChars result ['\n', ' '], none)

/-- Source function `getJoinDate`: strip the "Join Date: " text. -/
def getJoinDate (root : ProfileDoc) : String × Option String :=
  match root.joinDateQ with
  | none => ("", some "join date xmlpath did not return a result")
  | some result => (goTrimPrefixFn result "Join Date: ", none)

/-- Source function `getTotalPosts`: strip "Total Posts: ", remove
thousands separators, parse as integer. -/
def getTotalPosts (root : ProfileDoc) : Int × Option String :=
  match root.totalPostsQ with
  | none => (0, some "total posts xmlpath did not return a result")
  | some posts0 =>
      let posts1 := goTrimPrefixFn posts0 "Total Posts: "
      let posts2 := goRemoveCommas posts1
      match goAtoi posts2 with
      | none => (0, some "cannot convert posts to integer")
      | some result => (result, none)

/-- Source function `getReputation`: fetch the find-user listing, take the
first post's `@href`, fetch the referenced page, and look up the
reputation line in the table named by the href's fragment.  The fragment
is taken as `strings.Split(href, "#")[1]`, an index that panics when the
href contains no "#". -/
def getReputation (w : RepWorld) : GoOutcome (Int × Option String) :=
  match w.listingFetch with
  | .error e => .ok (0, some ("cannot get user's posts: " ++ e))
  | .ok listing =>
      match listing.firstHrefQ with
      | none => .ok (0, some "cannot get user posts")
      | some href =>
          match w.postFetch with
          | .error e => .ok (0, some ("cannot get user's post in a topic: " ++ e))
          | .ok page =>
              match (goSplitHash href).get? 1 with
              | none => .panic
              | some frag =>
                  match page.reputationQ frag with
                  | none => .ok (0, some "cannot get reputation field from post")
                  | some rep0 =>
                      let rep1 := goTrimPrefixFn rep0 "Reputation: "
                      let rep2 := goRemoveCommas rep1
                      match goAtoi rep2 with
                      | none => .ok (0, some "cannot convert reputation to integer")
                      | some result => .ok (result, none)

/-- Source function `getUserBio`: the about-me query's result, verbatim. -/
def getUserBio (root : ProfileDoc) : String × Option String :=
  match root.bioQ with
  | none => ("", some "user bio xmlpath did not return a result")
  | some result => (result, none)

/-- What one iteration of the visitor-message loop contributes: the message
when both scoped sub-queries succeed, nothing otherwise. -/
def extractBlock (b : MessageBlock) : Option VisitorMessage :=
  match b.userQ with
  | none => none
  | some user =>
      match b.textQ with
      | none => none
      | some text => some ⟨user, text⟩

/-- The `for messageBlock.Next()` loop of `getFirstTenUserVisitorMessages`:
append the block's message when both sub-queries succeed, `continue`
otherwise. -/
def visitorLoop : List MessageBlock → List VisitorMessage → List VisitorMessage
  | [], result => result
  | b :: rest, result =>
      match b.userQ with
      | none => visitorLoop rest result
      | some user =>
          match b.textQ with
          | none => visitorLoop rest result
          | some text => visitorLoop rest (result ++ [⟨user, text⟩])

/-- Source function `getFirstTenUserVisitorMessages`: error when the
container query `//*[@id="message_list"]/*` matches nothing (`Exists` is
false), else run the loop over every matched block.  The source imposes
no cap on the number of collected messages. -/
def getFirstTenUserVisitorMessages (root : ProfileDoc) :
    List VisitorMessage × Option String :=
  if root.messageBlocks = [] then
    ([], some "visitor messages xmlpath did not return a result")
  else
    (visitorLoop root.messageBlocks [], none)

-- ## Profile assembler

/-- Models `result.Errors = append(result.Errors, err)` guarded by `err != nil`. -/
def appendErr (errs : List String) : Option String → List String
  | none => errs
  | some e => errs ++ [e]

/-- Source function `GetUserProfilePage`: fatal on the page fetch or the
identity extractor; every other extractor runs unconditionally, its error
(if any) appended to the profile's error list and its value stored as
returned (the zero value on failure). -/
def GetUserProfilePage (w : FetchWorld) : GoOutcome (UserProfile × Option String) :=
  match w.profileFetch with
  | .error e =>
      .ok (emptyProfile, some ("failed to get HTML root for user page: " ++ e))
  | .ok root =>
      let (userName0, errName) := getUserName root
      match errName with
      | some _ =>
          .ok ({ emptyProfile with userName := userName0 },
            some "url did not lead to a valid user page")
      | none =>
          let (joinDate0, e1) := getJoinDate root
          let errs1 := appendErr [] e1
          let (totalPosts0, e2) := getTotalPosts root
          let errs2 := appendErr errs1 e2
          match getReputation w.repWorld with
          | .panic => .panic
          | .ok (reputation0, e3) =>
              let errs3 := appendErr errs2 e3
              let (bioText0, e4) := getUserBio root
              let errs4 := appendErr errs3 e4
              let (visitorMessages0, e5) := getFirstTenUserVisitorMessages root
              let errs5 := appendErr errs4 e5
              .ok ({ userName := userName0, joinDate := joinDate0,
                     totalPosts := totalPosts0, reputation := reputation0,
                     bioText := bioText0, visitorMessages := visitorMessages0,
                     errors := errs5 }, none)

-- ## Post Locator (`getLatestPost`)

/-- The find-user listing page as seen by `getLatestPost`: results of the
title query `//em/a` and the reference query `//em/a/@href`. -/
structure LatestListing where
  titleQ : Option String
  hrefQ : Option String
  deriving Repr, DecidableEq

/-- The referenced thread page as seen by `getLatestPost`: the text of the
element with a given identifier (the query `//div[@id="..."]`). -/
structure LatestPostDoc where
  elemById : String → Option String

/-- The two `GetHTMLRoot` responses a `getLatestPost` call can trigger. -/
structure LatestWorld where
  listingFetch : Except String LatestListing
  postFetch : Except String LatestPostDoc

/-- The post-local identifier computation from `getLatestPost`:
`href[strings.Index(href, "#post")+5:]`.  When "#post" is absent the
index is -1 and the slice starts at byte 4, panicking on an href shorter
than 4. -/
def postLocalId (href : String) : GoOutcome String :=
  goSliceFrom href (goIndex href "#post" + 5)

/-- Source function `getLatestPost`: fetch the find-user listing, read the
first post's title and reference, fetch the referenced page, compute the
post-local identifier, and read the element `post_message_<id>`.
All-or-nothing: any missing piece is an error. -/
def getLatestPost (w : LatestWorld) : GoOutcome (String × String × Option String) :=
  match w.listingFetch with
  | .error e => .ok ("", "", some ("cannot get user's posts: " ++ e))
  | .ok listing =>
      match listing.titleQ with
      | none => .ok ("", "", some "cannot get the title of the first post")
      | some title =>
          match listing.hrefQ with
          | none => .ok ("", "", some "cannot get user posts")
          | some href =>
              match w.postFetch with
              | .error e => .ok ("", "", some ("cannot get user post url: " ++ e))
              | .ok page =>
                  match postLocalId href with
                  | .panic => .panic
                  | .ok post =>
                      match page.elemById ("post_message_" ++ post) with
                      | none => .ok ("", "", some "cannot get the post")
                      | some message => .ok (title, message, none)

-- ## Theorems: Change Detector

/-- A tick does not decrease a non-negative `lastPostCount`, and keeps it
non-negative. -/
theorem newPostAlertTick_mono (s : Int) (r : FetchResult) (hs : 0 ≤ s) :
    s ≤ (newPostAlertTick s r).1 ∧ 0 ≤ (newPostAlertTick s r).1 := by
  have hne : s ≠ -1 := by omega
  unfold newPostAlertTick
  simp only [hne, if_false]
  by_cases h : s < observedTotalPosts r
  · simp only [h, if_true]
    omega
  · simp only [h, if_false]
    omega

/-- C1: the claim's failing input evaluated.  In the Uninitialized state
(sentinel -1), a tick whose profile fetch fails does NOT leave the
sentinel in place: the loop body falls through after logging, takes the
`lastPostCount == -1` branch, and records the zero-valued `TotalPosts`
(0) as the baseline, leaving the Uninitialized state.  No callback fires
on that tick. -/
theorem c1_failed_first_tick_records_zero_baseline :
    newPostAlertTick (-1) .failure = (0, 0) ∧ (newPostAlertTick (-1) .failure).1 ≠ -1 := by
  exact ⟨rfl, by decide⟩

/-- C4: starting from the sentinel `lastPostCount = -1`, a tick whose fetch
succeeds with any observed count `n ≥ 0` never invokes the callback,
records `n` as the baseline, and leaves the Uninitialized state (the new
`lastPostCount` is no longer the sentinel). -/
theorem c4_first_successful_tick_sets_baseline_no_callback (n : Int) (hn : 0 ≤ n) :
    newPostAlertTick (-1) (.success n) = (n, 0) ∧
      (newPostAlertTick (-1) (.success n)).1 ≠ -1 := by
  refine ⟨rfl, ?_⟩
  have h : newPostAlertTick (-1) (.success n) = (n, 0) := rfl
  rw [h]
  show n ≠ -1
  omega

/-- Witness for C4 at the spec's example: observed count 500 on the first
tick sets the baseline to 500 with no callback. -/
theorem c4_witness :
    (0 : Int) ≤ 500 ∧
      (newPostAlertTick (-1) (.success 500) = (500, 0) ∧
        (newPostAlertTick (-1) (.success 500)).1 ≠ -1) :=
  ⟨by decide, c4_first_successful_tick_sets_baseline_no_callback 500 (by decide)⟩

/-- C5: in the Tracking state with baseline `b ≥ 0` (so not the sentinel):
observing exactly `b` fires no callback and keeps the baseline; observing
`n > b` fires the callback exactly once and updates the baseline to `n`;
a failed fetch fires no callback and keeps the baseline. -/
theorem c5_tracking_tick_behaviour (b : Int) (hb : 0 ≤ b) :
    newPostAlertTick b (.success b) = (b, 0) ∧
      (∀ n : Int, b < n → newPostAlertTick b (.success n) = (n, 1)) ∧
      newPostAlertTick b .failure = (b, 0) := by
  have hne : b ≠ -1 := by omega
  refine ⟨?_, ?_, ?_⟩
  · have h1 : ¬ b < b := lt_irrefl b
    simp [newPostAlertTick, observedTotalPosts, hne, h1]
  · intro n hn
    simp [newPostAlertTick, observedTotalPosts, hne, hn]
  · have h0 : ¬ b < 0 := by omega
    simp [newPostAlertTick, observedTotalPosts, hne, h0]

/-- Witness for C5 at the spec's example: baseline 500, a tick observing
500 is silent, a tick observing 501 fires once and moves the baseline to
501, a failed tick is silent. -/
theorem c5_witness :
    (0 : Int) ≤ 500 ∧
      (newPostAlertTick 500 (.success 500) = (500, 0) ∧
        newPostAlertTick 500 (.success 501) = (501, 1) ∧
        newPostAlertTick 500 .failure = (500, 0)) :=
  ⟨by decide,
    (c5_tracking_tick_behaviour 500 (by decide)).1,
    (c5_tracking_tick_behaviour 500 (by decide)).2.1 501 (by decide),
    (c5_tracking_tick_behaviour 500 (by decide)).2.2⟩

/-- Non-negative states are preserved and never decreased by any tick trace. -/
theorem runTicks_mono (trace : List FetchResult) :
    ∀ s : Int, 0 ≤ s → s ≤ runTicks s trace := by
  induction trace with
  | nil => intro s _; simp [runTicks]
  | cons r rs ih =>
      intro s hs
      have h := newPostAlertTick_mono s r hs
      have h2 := ih (newPostAlertTick s r).1 h.2
      calc s ≤ (newPostAlertTick s r).1 := h.1
        _ ≤ runTicks (newPostAlertTick s r).1 rs := h2
        _ = runTicks s (r :: rs) := rfl

/-- C9: once the detector holds a real (non-negative, hence non-sentinel)
baseline `s`, `lastPostCount` is reassigned by a tick only to a strictly
larger observed value, and across any trace of further ticks — failed
fetches (observed as 0) included — it never decreases. -/
theorem c9_lastPostCount_monotone (s : Int) (hs : 0 ≤ s) :
    (∀ r : FetchResult, (newPostAlertTick s r).1 ≠ s →
        (newPostAlertTick s r).1 = observedTotalPosts r ∧ s < observedTotalPosts r) ∧
      (∀ trace : List FetchResult, s ≤ runTicks s trace) := by
  have hne : s ≠ -1 := by omega
  constructor
  · intro r hchange
    by_cases h : s < observedTotalPosts r
    · refine ⟨?_, h⟩
      simp [newPostAlertTick, hne, h]
    · exfalso
      apply hchange
      simp [newPostAlertTick, hne, h]
  · intro trace
    exact runTicks_mono trace s hs

/-- Witness for C9: from baseline 500, the trace
[failure, success 500, success 501, failure] never lowers the count. -/
theorem c9_witness :
    (0 : Int) ≤ 500 ∧
      500 ≤ runTicks 500 [.failure, .success 500, .success 501, .failure] :=
  ⟨by decide,
    (c9_lastPostCount_monotone 500 (by decide)).2
      [.failure, .success 500, .success 501, .failure]⟩

-- ## Theorems: field extractors and profile assembler

/-- The visitor-message loop appends, in order, exactly the messages of the
blocks on which both sub-queries succeed. -/
theorem visitorLoop_eq (blocks : List MessageBlock) :
    ∀ acc, visitorLoop blocks acc = acc ++ blocks.filterMap extractBlock := by
  induction blocks with
  | nil => intro acc; simp [visitorLoop]
  | cons b rest ih =>
      intro acc
      cases hu : b.userQ with
      | none => simp [visitorLoop, hu, extractBlock, ih]
      | some user =>
          cases ht : b.textQ with
          | none => simp [visitorLoop, hu, ht, extractBlock, ih]
          | some text => simp [visitorLoop, hu, ht, extractBlock, ih]

/-- C7: visitor-message extraction errors exactly when the container query
matches zero nodes; otherwise it returns, in source order, the messages
of exactly those blocks whose two sub-queries both succeed — so at most
one entry per block — and a block missing either sub-query contributes
nothing (and, the error component being `none`, nothing is added to the
profile's error list for it). -/
theorem c7_visitor_extraction (root : ProfileDoc) :
    ((getFirstTenUserVisitorMessages root).2.isSome ↔ root.messageBlocks = []) ∧
      (getFirstTenUserVisitorMessages root).1 =
        root.messageBlocks.filterMap extractBlock ∧
      (getFirstTenUserVisitorMessages root).1.length ≤ root.messageBlocks.length ∧
      (∀ b ∈ root.messageBlocks,
        (b.userQ = none ∨ b.textQ = none) → extractBlock b = none) := by
  have h2 : (getFirstTenUserVisitorMessages root).1 =
      root.messageBlocks.filterMap extractBlock := by
    by_cases h : root.messageBlocks = []
    · simp [getFirstTenUserVisitorMessages, h]
    · simp [getFirstTenUserVisitorMessages, h, visitorLoop_eq]
  refine ⟨?_, h2, ?_, ?_⟩
  · by_cases h : root.messageBlocks = [] <;>
      simp [getFirstTenUserVisitorMessages, h]
  · rw [h2]
    exact List.length_filterMap_le _ _
  · intro b _ hb
    rcases hb with h | h
    · simp [extractBlock, h]
    · cases hu : b.userQ <;> simp [extractBlock, hu, h]

/-- Witness for C7 on a concrete document: the block missing its body is
silently skipped, the complete block is kept. -/
theorem c7_witness :
    (getFirstTenUserVisitorMessages
        ⟨none, none, none, none, [⟨some "a", none⟩, ⟨some "u", some "m"⟩]⟩).1 =
      [⟨"u", "m"⟩] ∧
    extractBlock ⟨some "a", none⟩ = none := by
  constructor
  · rw [(c7_visitor_extraction
      ⟨none, none, none, none, [⟨some "a", none⟩, ⟨some "u", some "m"⟩]⟩).2.1]
    decide
  · exact (c7_visitor_extraction
      ⟨none, none, none, none, [⟨some "a", none⟩, ⟨some "u", some "m"⟩]⟩).2.2.2
      ⟨some "a", none⟩ (by decide) (Or.inr rfl)

/-- C3: the claim's failing input evaluated.  `getFirstTenUserVisitorMessages`
imposes no cap: a message container holding eleven blocks, each with a
successful author and body query, yields eleven visitor messages, so the
returned snapshot's sequence exceeds the claimed bound of ten. -/
theorem c3_eleven_blocks_yield_eleven_messages :
    (getFirstTenUserVisitorMessages
        ⟨none, none, none, none, List.replicate 11 ⟨some "u", some "m"⟩⟩).1.length = 11 ∧
      ¬ (getFirstTenUserVisitorMessages
        ⟨none, none, none, none, List.replicate 11 ⟨some "u", some "m"⟩⟩).1.length ≤ 10 := by
  exact ⟨by decide, by decide⟩

/-- C2: the claim's failing input evaluated.  When the first listed post's
reference contains no "#", `strings.Split(href, "#")` has a single chunk
and the unguarded index `[1]` is a run-time panic, which propagates
through `GetUserProfilePage`: the reputation failure is not recorded as a
field-level error in the snapshot's error list. -/
theorem c2_malformed_href_panics :
    getReputation ⟨.ok ⟨some "showthread.php?t=9"⟩, .ok ⟨fun _ => none⟩⟩ = .panic ∧
      GetUserProfilePage ⟨.ok ⟨some "Kalcor", none, none, none, []⟩,
        ⟨.ok ⟨some "showthread.php?t=9"⟩, .ok ⟨fun _ => none⟩⟩⟩ = .panic := by
  exact ⟨rfl, rfl⟩

/-- C6: on a document whose identity anchor is present and whose every other
query misses (and whose reputation sub-pipeline fails with a field error
`e` rather than a panic), `GetUserProfilePage` returns a nil top-level
error, every optional field at its zero value, and exactly one error
entry per absent field, in extractor order. -/
theorem c6_identity_only_document (name : String) (w : RepWorld) (e : String)
    (hrep : getReputation w = .ok (0, some e)) :
    GetUserProfilePage ⟨.ok ⟨some name, none, none, none, []⟩, w⟩ =
      .ok ({ userName := goTrimChars name ['\n', ' '],
             joinDate := "", totalPosts := 0, reputation := 0, bioText := "",
             visitorMessages := [],
             errors := ["join date xmlpath did not return a result",
                        "total posts xmlpath did not return a result",
                        e,
                        "user bio xmlpath did not return a result",
                        "visitor messages xmlpath did not return a result"] }, none) := by
  simp [GetUserProfilePage, getUserName, getJoinDate, getTotalPosts, getUserBio,
    getFirstTenUserVisitorMessages, appendErr, hrep]

/-- Witness for C6: identity "Kalcor" present, all other queries missing,
reputation failing on an empty post listing. -/
theorem c6_witness :
    getReputation ⟨.ok ⟨none⟩, .ok ⟨fun _ => none⟩⟩ =
        .ok (0, some "cannot get user posts") ∧
      GetUserProfilePage ⟨.ok ⟨some "Kalcor", none, none, none, []⟩,
          ⟨.ok ⟨none⟩, .ok ⟨fun _ => none⟩⟩⟩ =
        .ok ({ userName := "Kalcor", joinDate := "", totalPosts := 0,
               reputation := 0, bioText := "", visitorMessages := [],
               errors := ["join date xmlpath did not return a result",
                          "total posts xmlpath did not return a result",
                          "cannot get user posts",
                          "user bio xmlpath did not return a result",
                          "visitor messages xmlpath did not return a result"] },
          none) := by
  exact ⟨rfl, c6_identity_only_document "Kalcor" ⟨.ok ⟨none⟩, .ok ⟨fun _ => none⟩⟩
    "cannot get user posts" rfl⟩

-- ## Theorems: Post Locator

/-- C8: for the listing reference "thread.php?t=9#post123" the post-local
identifier is "123" — the substring after the "#post" marker — and the
target-page lookup is made at the element identifier "post_message_123":
against a page that answers only for that identifier, `getLatestPost`
returns its text. -/
theorem c8_post_local_identifier :
    postLocalId "thread.php?t=9#post123" = .ok "123" ∧
      (∀ title message : String,
        getLatestPost ⟨.ok ⟨some title, some "thread.php?t=9#post123"⟩,
            .ok ⟨fun s => if s = "post_message_123" then some message else none⟩⟩ =
          .ok (title, message, none)) := by
  exact ⟨rfl, fun _ _ => rfl⟩

/-- C10: the identifier computation is unguarded.  For a reference without
"#post", `strings.Index` is -1 and the slice starts at 4: a reference
shorter than 4 characters drives `getLatestPost` into a run-time panic
instead of an error; a longer one silently yields the meaningless suffix
from offset 4 as the identifier, with no malformed-reference error. -/
theorem c10_unguarded_identifier (href : String)
    (hno : goIndex href "#post" = -1) :
    ((href.length : Int) < 4 →
        ∀ (title : String) (page : LatestPostDoc),
          getLatestPost ⟨.ok ⟨some title, some href⟩, .ok page⟩ = .panic) ∧
      (4 ≤ (href.length : Int) →
        postLocalId href = .ok (String.mk (href.toList.drop 4))) := by
  have h4 : goIndex href "#post" + 5 = 4 := by rw [hno]; decide
  constructor
  · intro hlt title page
    have hp : postLocalId href = .panic := by
      unfold postLocalId goSliceFrom
      rw [h4, if_neg]
      intro hcontra
      omega
    simp [getLatestPost, hp]
  · intro hge
    unfold postLocalId goSliceFrom
    rw [h4, if_pos ⟨by omega, hge⟩]
    rfl

/-- Witness for C10: the reference "ab" contains no "#post" and is shorter
than 4 characters, so the locator panics on it. -/
theorem c10_witness :
    goIndex "ab" "#post" = -1 ∧ ((("ab" : String).length : Int) < 4) ∧
      getLatestPost ⟨.ok ⟨some "T", some "ab"⟩, .ok ⟨fun _ => none⟩⟩ = .panic :=
  ⟨by decide, by decide,
    (c10_unguarded_identifier "ab" (by decide)).1 (by decide) "T" ⟨fun _ => none⟩⟩

/-- Witness for C8 on a concrete page: the element "post_message_123" holds
"Hello", and the locator returns it with the listing's title. -/
theorem c8_witness :
    getLatestPost ⟨.ok ⟨some "T", some "thread.php?t=9#post123"⟩,
        .ok ⟨fun s => if s = "post_message_123" then some "Hello" else none⟩⟩ =
      .ok ("T", "Hello", none) :=
  c8_post_local_identifier.2 "T" "Hello"
